import Mathlib

/-!
Verification development for the hikaruXmagnusBOT training core.

The repository's source files under scrutiny are `src/models/tf_net.py`
(the `LeelaZeroNet` model: forward pass and training step) and
`src/models/train.py` (learning-rate schedule and steps-per-epoch
computation).  The layer library `tf_layers.py` and loss library
`tf_losses.py` are imported by `tf_net.py` but are not part of the
sources; their behaviour, where a claim depends on it, is modelled from
the specification and marked as such in doc comments.

Numeric values are modelled as exact rationals; machine floating point
is abstracted away except where finiteness matters, in which case a
dedicated type with a non-finite element is used.
-/

/-- Tensor element dtype, as relevant to the mixed-precision handling:
`float32` is the fixed full-precision type, `float16` the reduced type
used internally under the `mixed_float16` policy. -/
inductive DType where
  | float32
  | float16
deriving DecidableEq, Repr

/-- A tensor: a dtype tag, a (per-sample) shape, and flat rational data.
The batch dimension is left implicit; claims about the forward pass are
per-sample. -/
structure Tensor where
  dtype : DType
  shape : List Nat
  data : List ℚ
deriving DecidableEq, Repr

/-- Embeds `tf.cast(t, dtype)`: retags the tensor's dtype.  Casting up to
float32 is value-exact, so the rational data is unchanged. -/
def castTo (d : DType) (t : Tensor) : Tensor :=
  { t with dtype := d }

/-- Embeds `tf.keras.layers.Reshape((112, 8, 8))` from `LeelaZeroNet.__init__`:
reshapes the flat per-sample input to the fixed 112×8×8 spatial shape,
keeping the data. -/
def inputReshape (t : Tensor) : Tensor :=
  { t with shape := [112, 8, 8] }

/-- Modelled from the spec: `ConvolutionalValueOrMovesLeftHead` lives in
`tf_layers.py`, which is not among the sources.  Per §4.5 the head
reduces the trunk via `num_filters` convolutional filters, flattens,
applies a hidden dense layer of width `hidden_dim`, then a final dense
projection to `output_dim`; that learned computation is abstracted as
the function `raw`.  When `relu` is set, a clamping nonlinearity
(elementwise `max 0`) is applied to the final output, per §4.5's
"the moves-left variant additionally applies a clamping nonlinearity
(output ≥ 0)". -/
structure ValueOrMovesLeftHead where
  output_dim : Nat
  num_filters : Nat
  hidden_dim : Nat
  relu : Bool
  raw : Tensor → Tensor

/-- Head application: the learned computation followed by the optional
relu clamp (which preserves dtype and shape, acting elementwise on the
data). -/
def ValueOrMovesLeftHead.apply (h : ValueOrMovesLeftHead) (t : Tensor) : Tensor :=
  let out := h.raw t
  if h.relu then { out with data := out.data.map (fun q => max q 0) } else out

/-- The `LeelaZeroNet` model state relevant to the forward pass
(`tf_net.py` lines 11–75).  The input block, residual blocks and policy
head are learned layers from the absent `tf_layers.py`; only their
composition matters to the claims, so each is carried as an abstract
tensor function.  The two dense heads are carried concretely because
their clamping configuration is fixed in `LeelaZeroNet.__init__`. -/
structure LeelaZeroNet where
  input_block : Tensor → Tensor
  residual_blocks : List (Tensor → Tensor)
  policy_head : Tensor → Tensor
  value_head : ValueOrMovesLeftHead
  moves_left_head : ValueOrMovesLeftHead
  policy_loss_weight : ℚ
  value_loss_weight : ℚ
  moves_left_loss_weight : ℚ

/-- Embeds `LeelaZeroNet.__init__` (`tf_net.py` lines 12–61): builds the list
of `num_residual_blocks` residual blocks, the value head with
`output_dim=3, num_filters=32, hidden_dim=128, relu=False`, and the
moves-left head with `output_dim=1, num_filters=8, hidden_dim=128,
relu=True`, and stores the three loss weights.  The learned layer
bodies (absent `tf_layers.py`) are supplied as function arguments. -/
def LeelaZeroNet.init
    (num_residual_blocks : Nat)
    (input_block : Tensor → Tensor)
    (residual_block_fn : Nat → Tensor → Tensor)
    (policy_head : Tensor → Tensor)
    (value_raw : Tensor → Tensor)
    (moves_left_raw : Tensor → Tensor)
    (policy_loss_weight value_loss_weight moves_left_loss_weight : ℚ) :
    LeelaZeroNet :=
  { input_block := input_block
    residual_blocks := (List.range num_residual_blocks).map residual_block_fn
    policy_head := policy_head
    value_head :=
      { output_dim := 3, num_filters := 32, hidden_dim := 128
        relu := false, raw := value_raw }
    moves_left_head :=
      { output_dim := 1, num_filters := 8, hidden_dim := 128
        relu := true, raw := moves_left_raw }
    policy_loss_weight := policy_loss_weight
    value_loss_weight := value_loss_weight
    moves_left_loss_weight := moves_left_loss_weight }

/-- Embeds `LeelaZeroNet.call` (`tf_net.py` lines 63–75): reshape, input block,
the residual blocks in sequence (the `for` loop), the three heads on the
resulting trunk, and a cast of each head output to float32. -/
def LeelaZeroNet.call (net : LeelaZeroNet) (inputs : Tensor) :
    Tensor × Tensor × Tensor :=
  let flow := inputReshape inputs
  let flow := net.input_block flow
  let flow := net.residual_blocks.foldl (fun t block => block t) flow
  let policy_out := net.policy_head flow
  let value_out := net.value_head.apply flow
  let moves_left_out := net.moves_left_head.apply flow
  (castTo .float32 policy_out, castTo .float32 value_out,
    castTo .float32 moves_left_out)

/-- The shared trunk feature map: the value of `flow` after the input
block and the residual-block loop in `LeelaZeroNet.call`. -/
def LeelaZeroNet.trunk (net : LeelaZeroNet) (inputs : Tensor) : Tensor :=
  net.residual_blocks.foldl (fun t block => block t)
    (net.input_block (inputReshape inputs))

/-- A training batch (`tf_net.py` line 78): input planes and the three
aligned targets, consumed by one training step. -/
structure Batch where
  input_planes : Tensor
  policy_target : Tensor
  wdl_target : Tensor
  moves_left_target : Tensor

/-- Modelled from the spec: `policy_loss`, `value_loss` and
`moves_left_loss` live in `tf_losses.py`, which is not among the
sources.  Per §4.6 each maps a (target, output) tensor pair to a single
scalar per batch; each is abstracted here as such a function. -/
structure LossFns where
  policy_loss : Tensor → Tensor → ℚ
  value_loss : Tensor → Tensor → ℚ
  moves_left_loss : Tensor → Tensor → ℚ

/-- Modelled from the spec: the reverse-mode gradients, with respect to
the `n` trainable variables, of the three component losses on the
current batch.  `tape.gradient` itself is TensorFlow-internal; what the
training step relies on (§4.7, §9: "Loss scaling: multiplying the loss
before differentiation … then dividing gradients back down") is that
differentiation is linear in the recorded output scalar, so the
gradient of `c·(w_p·p + w_v·v + w_m·m)` is the matching linear
combination of these three per-loss gradients. -/
structure GradCtx (n : Nat) where
  gradPolicy : Fin n → ℚ
  gradValue : Fin n → ℚ
  gradMoves : Fin n → ℚ

/-- The value of `tape.gradient` applied to the scalar
`c * (a·policy_loss + b·value_loss + m·moves_left_loss)` recorded on
the tape, expressed through the per-loss gradients by linearity of
reverse-mode differentiation. -/
def tapeGradient (g : GradCtx n) (a b m c : ℚ) : Fin n → ℚ :=
  fun i => c * (a * g.gradPolicy i + b * g.gradValue i + m * g.gradMoves i)

/-- Modelled from the spec: the optimizer collaborator (§6: "gradient
application with global-norm clipping"; §4.7 UPDATED).  The global-norm
clip rescales all gradients uniformly; the rescaling factor is carried
as the abstract function `clipFactor` of the gradient vector, and the
descent update applies the (clipped) gradients scaled by the learning
rate.  In reduced-precision mode the optimizer also provides loss
scaling (`get_scaled_loss`) and gradient unscaling
(`get_unscaled_gradients`) around a dynamic `lossScale` factor. -/
structure Optimizer (n : Nat) where
  learning_rate : ℚ
  clipFactor : (Fin n → ℚ) → ℚ
  lossScale : ℚ

/-- Embeds `optimizer.get_scaled_loss`: multiply the loss by the loss-scale
factor. -/
def Optimizer.get_scaled_loss (opt : Optimizer n) (loss : ℚ) : ℚ :=
  opt.lossScale * loss

/-- Embeds `optimizer.get_unscaled_gradients`: divide each gradient by the
loss-scale factor. -/
def Optimizer.get_unscaled_gradients (opt : Optimizer n)
    (grads : Fin n → ℚ) : Fin n → ℚ :=
  fun i => grads i / opt.lossScale

/-- Embeds `optimizer.apply_gradients`: descent update with the uniform
global-norm clip rescaling. -/
def Optimizer.apply_gradients (opt : Optimizer n)
    (params grads : Fin n → ℚ) : Fin n → ℚ :=
  fun i => params i - opt.learning_rate * opt.clipFactor grads * grads i

/-- The four scalar losses returned by the training step (`tf_net.py`
lines 97–102: the dict with keys `policy_loss`, `value_loss`,
`moves_left_loss`, `loss`). -/
structure StepResult where
  policy_loss : ℚ
  value_loss : ℚ
  moves_left_loss : ℚ
  loss : ℚ
deriving DecidableEq

/-- The gradient-computation phase of `LeelaZeroNet.train_step`
(`tf_net.py` lines 89–94): under the `mixed_float16` global policy,
scale the total loss, differentiate the scaled loss, and unscale the
resulting gradients; otherwise differentiate the total loss directly. -/
def computeGradients (net : LeelaZeroNet) (opt : Optimizer n)
    (gctx : GradCtx n) (mixedPrecision : Bool) : Fin n → ℚ :=
  if mixedPrecision then
    let scaledGradients := tapeGradient gctx net.policy_loss_weight
      net.value_loss_weight net.moves_left_loss_weight opt.lossScale
    opt.get_unscaled_gradients scaledGradients
  else
    tapeGradient gctx net.policy_loss_weight net.value_loss_weight
      net.moves_left_loss_weight 1

/-- Embeds `LeelaZeroNet.train_step` (`tf_net.py` lines 77–102): forward pass,
the three component losses, the weighted total, gradient computation
(two precision paths), `apply_gradients`, and the four returned scalars.
`params` are the trainable variables; the updated variables are returned
alongside the loss dict. -/
def LeelaZeroNet.train_step (net : LeelaZeroNet) (lossFns : LossFns)
    (opt : Optimizer n) (gctx : GradCtx n) (mixedPrecision : Bool)
    (params : Fin n → ℚ) (batch : Batch) : StepResult × (Fin n → ℚ) :=
  let outs := net.call batch.input_planes
  let p_loss := lossFns.policy_loss batch.policy_target outs.1
  let v_loss := lossFns.value_loss batch.wdl_target outs.2.1
  let ml_loss := lossFns.moves_left_loss batch.moves_left_target outs.2.2
  let total_loss := net.policy_loss_weight * p_loss
    + net.value_loss_weight * v_loss
    + net.moves_left_loss_weight * ml_loss
  let gradients := computeGradients net opt gctx mixedPrecision
  (⟨p_loss, v_loss, ml_loss, total_loss⟩,
    opt.apply_gradients params gradients)

/-- A floating-point scalar as seen by the overflow check: either a
finite value or a non-finite one (NaN or ±Inf), which reduced-precision
gradient computation can produce on overflow. -/
inductive FpVal where
  | finite (q : ℚ)
  | nonFinite
deriving DecidableEq, Repr

/-- Finiteness test on a floating-point scalar. -/
def FpVal.isFinite : FpVal → Bool
  | .finite _ => true
  | .nonFinite => false

/-- Gradient unscaling on possibly non-finite values: a finite scaled
gradient is divided by the loss scale; a non-finite one stays
non-finite, which is how unscaling signals overflow. -/
def FpVal.unscale (s : ℚ) : FpVal → FpVal
  | .finite q => .finite (q / s)
  | .nonFinite => .nonFinite

/-- State held by the loss-scale optimizer wrapper: the trainable
variables and the dynamic loss-scale factor. -/
structure LSOState (n : Nat) where
  params : Fin n → ℚ
  lossScale : ℚ

/-- Modelled from the spec: the reduced-precision optimizer collaborator
(`tf.keras.mixed_precision.LossScaleOptimizer`, wrapped around the inner
optimizer in `train.py` line 78; behaviour per §4.7 and §7).  It
unscales the scaled gradients; if any unscaled gradient is non-finite it
skips the parameter update entirely and adjusts the loss-scale factor
downward (halving, per the usual dynamic policy — the exact shrink
factor is delegated), returning normally rather than raising; otherwise
it applies the finite unscaled gradients through the inner optimizer.
The `Except` result separates this recoverable path from fatal errors:
overflow never produces `Except.error`. -/
def lossScaleOptStep (inner : Optimizer n) (st : LSOState n)
    (scaledGrads : Fin n → FpVal) : Except String (LSOState n) :=
  let unscaled := fun i => (scaledGrads i).unscale st.lossScale
  if ∀ i, (unscaled i).isFinite = true then
    let finiteGrads : Fin n → ℚ := fun i =>
      match unscaled i with
      | .finite q => q
      | .nonFinite => 0
    Except.ok
      { params := inner.apply_gradients st.params finiteGrads
        lossScale := st.lossScale }
  else
    Except.ok { params := st.params, lossScale := st.lossScale / 2 }

/-- Embeds the closure returned by `get_schedule_function` from `train.py` lines 10–18: the returned
`scheduler` computes `num_reductions = int(epoch //
reduce_lr_every_n_epochs)`, `reduction_factor = reduce_lr_factor **
num_reductions`, and returns `max(min_learning_rate, starting_lr /
reduction_factor)`.  `epoch` is the non-negative integer Keras passes,
so Python's floor division is natural-number division;
`reduce_lr_factor` is an `int` argument. -/
def scheduler (starting_lr : ℚ) (reduce_lr_every_n_epochs : Nat)
    (reduce_lr_factor : ℤ) (min_learning_rate : ℚ) (epoch : Nat) : ℚ :=
  let num_reductions : Nat := epoch / reduce_lr_every_n_epochs
  let reduction_factor : ℤ := reduce_lr_factor ^ num_reductions
  max min_learning_rate (starting_lr / (reduction_factor : ℚ))

/-- A loaded game record as used by the steps-per-epoch computation in
`train.py` lines 121–128: only the presence of a `"tcn"` field and the
length of its string value matter. -/
structure Game where
  tcn : Option String

/-- Python's `int()` on a rational: truncation toward zero. -/
def pyInt (q : ℚ) : ℤ :=
  if 0 ≤ q then ⌊q⌋ else -⌊-q⌋

/-- The move-count accumulation from `train.py` lines 121–128: over
every loaded file's game list, `moves += len(game["tcn"]) / 2` for each
game with a `"tcn"` field (true division, exact on rationals). -/
def countMoves (files : List (List Game)) : ℚ :=
  files.foldl
    (fun acc games =>
      games.foldl
        (fun acc g =>
          match g.tcn with
          | some s => acc + (s.length : ℚ) / 2
          | none => acc)
        acc)
    0

/-- Embeds `int(moves / args.batch_size)` from `train.py` lines 130–134: the
steps-per-epoch value passed to `model.fit`. -/
def stepsPerEpoch (files : List (List Game)) (batch_size : Nat) : ℤ :=
  pyInt (countMoves files / (batch_size : ℚ))

/-- The steps-per-epoch value as the claim states it: the floor of the
sum, over loaded games that contain a `"tcn"` field, of half the field's
length, divided by the batch size. -/
def claimedStepsPerEpoch (files : List (List Game)) (batch_size : Nat) : ℤ :=
  ⌊(((files.flatten.filterMap Game.tcn).map
      (fun s => (s.length : ℚ) / 2)).sum / (batch_size : ℚ))⌋

/-! ### Concrete instances used by witness theorems -/

/-- A concrete learned layer standing in for an input or residual block:
shifts every entry and works in the reduced dtype, as layers do under
the mixed policy. -/
def exLayer : Tensor → Tensor :=
  fun t => { dtype := .float16, shape := t.shape, data := t.data.map (fun q => q + 1) }

/-- A concrete policy-head computation producing the move-space shape. -/
def exPolicyRaw : Tensor → Tensor :=
  fun _ => { dtype := .float16, shape := [1858], data := [5] }

/-- A concrete value-head computation producing the WDL 3-vector. -/
def exValueRaw : Tensor → Tensor :=
  fun _ => { dtype := .float16, shape := [3], data := [1, -2, 3] }

/-- A concrete moves-left-head computation producing a negative raw
scalar, so the clamp is exercised. -/
def exMovesRaw : Tensor → Tensor :=
  fun _ => { dtype := .float16, shape := [1], data := [-5] }

/-- A concrete network with two residual blocks. -/
def exNet : LeelaZeroNet :=
  LeelaZeroNet.init 2 exLayer (fun _ => exLayer) exPolicyRaw exValueRaw
    exMovesRaw 1 1 (1 / 100)

/-- A concrete network whose three loss weights are all zero. -/
def exNetZeroW : LeelaZeroNet :=
  LeelaZeroNet.init 1 exLayer (fun _ => exLayer) exPolicyRaw exValueRaw
    exMovesRaw 0 0 0

/-- A concrete flat input tensor. -/
def exInput : Tensor :=
  { dtype := .float32, shape := [7168], data := [2, 3] }

/-- A concrete batch. -/
def exBatch : Batch :=
  { input_planes := exInput, policy_target := exInput
    wdl_target := exInput, moves_left_target := exInput }

/-- Concrete loss functions. -/
def exLossFns : LossFns :=
  { policy_loss := fun _ _ => 2, value_loss := fun _ _ => 3
    moves_left_loss := fun _ _ => 5 }

/-- A concrete optimizer over two trainable variables. -/
def exOpt : Optimizer 2 :=
  { learning_rate := 1 / 10, clipFactor := fun _ => 1, lossScale := 1024 }

/-- Concrete per-loss gradients over two trainable variables. -/
def exGctx : GradCtx 2 :=
  { gradPolicy := ![1, 2], gradValue := ![3, 4], gradMoves := ![5, 6] }

/-- Concrete trainable variables. -/
def exParams : Fin 2 → ℚ := ![10, 20]

/-! ### Claims -/

/-- C1: for every batch and the weight triple fixed at construction, the
training step returns exactly the four scalars (the three component
losses, each computed by its loss function on the targets and the
forward outputs of that batch, and the total), and the total equals
`w_p*policy_loss + w_v*value_loss + w_m*moves_left_loss` of the returned
components. -/
theorem train_step_returns_weighted_total (net : LeelaZeroNet)
    (lossFns : LossFns) (opt : Optimizer n) (gctx : GradCtx n)
    (mixedPrecision : Bool) (params : Fin n → ℚ) (batch : Batch) :
    (net.train_step lossFns opt gctx mixedPrecision params batch).1.policy_loss
        = lossFns.policy_loss batch.policy_target (net.call batch.input_planes).1
    ∧ (net.train_step lossFns opt gctx mixedPrecision params batch).1.value_loss
        = lossFns.value_loss batch.wdl_target (net.call batch.input_planes).2.1
    ∧ (net.train_step lossFns opt gctx mixedPrecision params batch).1.moves_left_loss
        = lossFns.moves_left_loss batch.moves_left_target (net.call batch.input_planes).2.2
    ∧ (net.train_step lossFns opt gctx mixedPrecision params batch).1.loss
        = net.policy_loss_weight
            * (net.train_step lossFns opt gctx mixedPrecision params batch).1.policy_loss
          + net.value_loss_weight
            * (net.train_step lossFns opt gctx mixedPrecision params batch).1.value_loss
          + net.moves_left_loss_weight
            * (net.train_step lossFns opt gctx mixedPrecision params batch).1.moves_left_loss :=
  ⟨rfl, rfl, rfl, rfl⟩

/-- C2: the training step computes gradients through exactly one of two
paths selected by the precision mode: in reduced precision it
differentiates the loss-scaled total (the gradient of
`get_scaled_loss total`, i.e. of `lossScale * total`) and unscales the
resulting gradients before they are applied; in full precision it
differentiates the total directly; and the parameter update applies
precisely the gradients so computed. -/
theorem train_step_precision_paths (net : LeelaZeroNet) (lossFns : LossFns)
    (opt : Optimizer n) (gctx : GradCtx n) (mixedPrecision : Bool)
    (params : Fin n → ℚ) (batch : Batch) :
    (net.train_step lossFns opt gctx mixedPrecision params batch).2
        = opt.apply_gradients params (computeGradients net opt gctx mixedPrecision)
    ∧ (mixedPrecision = true →
        computeGradients net opt gctx mixedPrecision
          = opt.get_unscaled_gradients
              (tapeGradient gctx net.policy_loss_weight net.value_loss_weight
                net.moves_left_loss_weight opt.lossScale))
    ∧ (mixedPrecision = false →
        computeGradients net opt gctx mixedPrecision
          = tapeGradient gctx net.policy_loss_weight net.value_loss_weight
              net.moves_left_loss_weight 1) := by
  refine ⟨rfl, ?_, ?_⟩ <;> intro h <;> subst h <;> rfl

/-- Witness for C2 at concrete inputs: both precision paths, evaluated
on a concrete network, optimizer and gradient context. -/
theorem train_step_precision_paths_witness :
    computeGradients exNet exOpt exGctx true
        = exOpt.get_unscaled_gradients
            (tapeGradient exGctx exNet.policy_loss_weight exNet.value_loss_weight
              exNet.moves_left_loss_weight exOpt.lossScale)
    ∧ computeGradients exNet exOpt exGctx false
        = tapeGradient exGctx exNet.policy_loss_weight exNet.value_loss_weight
            exNet.moves_left_loss_weight 1 :=
  ⟨(train_step_precision_paths exNet exLossFns exOpt exGctx true exParams exBatch).2.1 rfl,
   (train_step_precision_paths exNet exLossFns exOpt exGctx false exParams exBatch).2.2 rfl⟩

/-- C4: the forward pass is the reshape to 112×8×8, then the single
input block, then the residual blocks folded strictly in sequence (the
trunk of a net whose block list is extended by one block is that block
applied to the shorter trunk, and the empty list gives the input-block
output directly), and the three heads each consume the one resulting
trunk tensor. -/
theorem call_sequential_structure (net : LeelaZeroNet) (x : Tensor) :
    net.call x
      = (castTo .float32 (net.policy_head (net.trunk x)),
         castTo .float32 (net.value_head.apply (net.trunk x)),
         castTo .float32 (net.moves_left_head.apply (net.trunk x)))
    ∧ LeelaZeroNet.trunk { net with residual_blocks := [] } x
        = net.input_block (inputReshape x)
    ∧ ∀ (blocks : List (Tensor → Tensor)) (block : Tensor → Tensor),
        LeelaZeroNet.trunk { net with residual_blocks := blocks ++ [block] } x
          = block (LeelaZeroNet.trunk { net with residual_blocks := blocks } x) := by
  refine ⟨rfl, rfl, ?_⟩
  intro blocks block
  simp [LeelaZeroNet.trunk]

/-- C5: all three outputs of the forward pass carry the fixed
full-precision dtype float32, for every network (hence for every
internal compute precision of its layers) and every input. -/
theorem call_outputs_float32 (net : LeelaZeroNet) (x : Tensor) :
    (net.call x).1.dtype = DType.float32
    ∧ (net.call x).2.1.dtype = DType.float32
    ∧ (net.call x).2.2.dtype = DType.float32 :=
  ⟨rfl, rfl, rfl⟩

/-- C6: for a network as constructed by `LeelaZeroNet.__init__`, every
entry of the moves-left output of the forward pass is nonnegative (the
head was built with `relu=True`, so the clamping nonlinearity is
applied), while the value output is exactly the unclamped raw head
computation on the trunk (the head was built with `relu=False`), cast to
float32. -/
theorem moves_left_clamped_value_unclamped (nrb : Nat)
    (ib : Tensor → Tensor) (rbf : Nat → Tensor → Tensor)
    (ph vr mlr : Tensor → Tensor) (wp wv wm : ℚ) (x : Tensor) :
    (∀ q ∈ ((LeelaZeroNet.init nrb ib rbf ph vr mlr wp wv wm).call x).2.2.data,
        0 ≤ q)
    ∧ ((LeelaZeroNet.init nrb ib rbf ph vr mlr wp wv wm).call x).2.1
        = castTo .float32
            (vr ((LeelaZeroNet.init nrb ib rbf ph vr mlr wp wv wm).trunk x)) := by
  constructor
  · intro q hq
    simp only [LeelaZeroNet.call, LeelaZeroNet.init, ValueOrMovesLeftHead.apply,
      castTo, if_pos, List.mem_map] at hq
    obtain ⟨a, -, rfl⟩ := hq
    exact le_max_right a 0
  · rfl

/-- Witness for C6: on the concrete network the clamped moves-left
output contains the value 0 (the raw head produced −5), and it is
nonnegative; the concrete value output equals the unclamped raw
computation. -/
theorem moves_left_clamped_value_unclamped_witness :
    (0 : ℚ) ≤ 0
    ∧ (exNet.call exInput).2.1 = castTo .float32 (exValueRaw (exNet.trunk exInput)) :=
  ⟨(moves_left_clamped_value_unclamped 2 exLayer (fun _ => exLayer) exPolicyRaw
      exValueRaw exMovesRaw 1 1 (1 / 100) exInput).1 0 (by decide),
   (moves_left_clamped_value_unclamped 2 exLayer (fun _ => exLayer) exPolicyRaw
      exValueRaw exMovesRaw 1 1 (1 / 100) exInput).2⟩

/-- C7: if all three loss weights fixed at construction are zero, then
on every batch the training step's total loss is 0 and the parameter
update leaves every trainable variable unchanged, in either precision
mode. -/
theorem zero_weights_zero_loss_no_update (net : LeelaZeroNet)
    (lossFns : LossFns) (opt : Optimizer n) (gctx : GradCtx n)
    (mixedPrecision : Bool) (params : Fin n → ℚ) (batch : Batch)
    (hp : net.policy_loss_weight = 0) (hv : net.value_loss_weight = 0)
    (hm : net.moves_left_loss_weight = 0) :
    (net.train_step lossFns opt gctx mixedPrecision params batch).1.loss = 0
    ∧ (net.train_step lossFns opt gctx mixedPrecision params batch).2 = params := by
  constructor
  · simp [LeelaZeroNet.train_step, hp, hv, hm]
  · have hg : computeGradients net opt gctx mixedPrecision = fun _ => (0 : ℚ) := by
      cases mixedPrecision
      · funext i
        simp [computeGradients, tapeGradient, hp, hv, hm]
      · funext i
        simp [computeGradients, tapeGradient, Optimizer.get_unscaled_gradients,
          hp, hv, hm]
    show opt.apply_gradients params (computeGradients net opt gctx mixedPrecision)
      = params
    rw [hg]
    funext i
    simp [Optimizer.apply_gradients]

/-- Witness for C7: the all-zero-weight concrete network on a concrete
batch yields total loss 0 and unchanged parameters. -/
theorem zero_weights_zero_loss_no_update_witness :
    (exNetZeroW.train_step exLossFns exOpt exGctx false exParams exBatch).1.loss = 0
    ∧ (exNetZeroW.train_step exLossFns exOpt exGctx false exParams exBatch).2
        = exParams :=
  zero_weights_zero_loss_no_update exNetZeroW exLossFns exOpt exGctx false
    exParams exBatch rfl rfl rfl

/-- C8: with `num_residual_blocks = 0` the forward pass is exactly the
input block on the reshaped input followed directly by the three heads
(the residual-block fold is over the empty list), and if each head
produces its contractual output shape then the three outputs of the
forward pass carry those shapes. -/
theorem zero_residual_blocks_reduction (ib : Tensor → Tensor)
    (rbf : Nat → Tensor → Tensor) (ph vr mlr : Tensor → Tensor)
    (wp wv wm : ℚ) (x : Tensor) (pShape vShape mShape : List Nat)
    (hp : ∀ t, (ph t).shape = pShape) (hv : ∀ t, (vr t).shape = vShape)
    (hm : ∀ t, (mlr t).shape = mShape) :
    (LeelaZeroNet.init 0 ib rbf ph vr mlr wp wv wm).call x
      = (castTo .float32 (ph (ib (inputReshape x))),
         castTo .float32
           ((LeelaZeroNet.init 0 ib rbf ph vr mlr wp wv wm).value_head.apply
             (ib (inputReshape x))),
         castTo .float32
           ((LeelaZeroNet.init 0 ib rbf ph vr mlr wp wv wm).moves_left_head.apply
             (ib (inputReshape x))))
    ∧ ((LeelaZeroNet.init 0 ib rbf ph vr mlr wp wv wm).call x).1.shape = pShape
    ∧ ((LeelaZeroNet.init 0 ib rbf ph vr mlr wp wv wm).call x).2.1.shape = vShape
    ∧ ((LeelaZeroNet.init 0 ib rbf ph vr mlr wp wv wm).call x).2.2.shape = mShape := by
  refine ⟨rfl, ?_, ?_, ?_⟩
  · simp [LeelaZeroNet.call, LeelaZeroNet.init, castTo, hp]
  · simp [LeelaZeroNet.call, LeelaZeroNet.init, castTo,
      ValueOrMovesLeftHead.apply, hv]
  · simp [LeelaZeroNet.call, LeelaZeroNet.init, castTo,
      ValueOrMovesLeftHead.apply, hm]

/-- Witness for C8: the concrete zero-block network produces the
contractual moves-left shape. -/
theorem zero_residual_blocks_reduction_witness :
    ((LeelaZeroNet.init 0 exLayer (fun _ => exLayer) exPolicyRaw exValueRaw
        exMovesRaw 1 1 (1 / 100)).call exInput).2.2.shape = [1] :=
  (zero_residual_blocks_reduction exLayer (fun _ => exLayer) exPolicyRaw
    exValueRaw exMovesRaw 1 1 (1 / 100) exInput [1858] [3] [1]
    (fun _ => rfl) (fun _ => rfl) (fun _ => rfl)).2.2.2

/-- C3: in the reduced-precision path, if any incoming scaled gradient
is non-finite (so unscaling signals non-finite gradients), the
loss-scale optimizer step skips the parameter update entirely — the
parameters in the resulting state are the pre-step parameters — adjusts
the loss scale downward, and returns normally (an `ok` result, never an
error), so the run does not terminate. -/
theorem overflow_skips_update (inner : Optimizer n) (st : LSOState n)
    (scaledGrads : Fin n → FpVal) (j : Fin n)
    (hj : scaledGrads j = FpVal.nonFinite) :
    lossScaleOptStep inner st scaledGrads
      = Except.ok { params := st.params, lossScale := st.lossScale / 2 } := by
  have hcond : ¬ ∀ i, ((scaledGrads i).unscale st.lossScale).isFinite = true := by
    intro h
    have hji := h j
    rw [hj] at hji
    simp [FpVal.unscale, FpVal.isFinite] at hji
  simp only [lossScaleOptStep]
  rw [if_neg hcond]

/-- A concrete inner optimizer over one trainable variable. -/
def exOpt1 : Optimizer 1 :=
  { learning_rate := 1 / 10, clipFactor := fun _ => 1, lossScale := 1024 }

/-- A concrete loss-scale optimizer state over one trainable variable. -/
def exLSO : LSOState 1 :=
  { params := ![7], lossScale := 1024 }

/-- Witness for C3: a concrete one-variable state with a non-finite
scaled gradient keeps its parameters and halves its loss scale. -/
theorem overflow_skips_update_witness :
    lossScaleOptStep exOpt1 exLSO (fun _ => FpVal.nonFinite)
      = Except.ok { params := exLSO.params, lossScale := exLSO.lossScale / 2 } :=
  overflow_skips_update exOpt1 exLSO (fun _ => FpVal.nonFinite) 0 rfl

/-- The per-game accumulation step of the move-count loop. -/
def moveStep (acc : ℚ) (g : Game) : ℚ :=
  match g.tcn with
  | some s => acc + (s.length : ℚ) / 2
  | none => acc

/-- Folding the per-game step over a game list adds the sum of half the
`tcn` lengths of the games that have one. -/
theorem moveStep_foldl (games : List Game) (acc : ℚ) :
    games.foldl moveStep acc
      = acc + ((games.filterMap Game.tcn).map
          (fun s => (s.length : ℚ) / 2)).sum := by
  induction games generalizing acc with
  | nil => simp
  | cons g gs ih =>
    cases h : g.tcn with
    | none => simp [List.foldl_cons, moveStep, h, ih]
    | some s => simp [List.foldl_cons, moveStep, h, ih, add_assoc]

/-- The accumulated move count equals the sum, over all loaded games
with a `tcn` field, of half the field's length. -/
theorem countMoves_eq (files : List (List Game)) :
    countMoves files
      = ((files.flatten.filterMap Game.tcn).map
          (fun s => (s.length : ℚ) / 2)).sum := by
  unfold countMoves
  have haux : ∀ (fs : List (List Game)) (acc : ℚ),
      fs.foldl (fun acc games => games.foldl moveStep acc) acc
        = acc + ((fs.flatten.filterMap Game.tcn).map
            (fun s => (s.length : ℚ) / 2)).sum := by
    intro fs
    induction fs with
    | nil => intro acc; simp
    | cons games rest ih =>
      intro acc
      rw [List.foldl_cons, ih, moveStep_foldl]
      simp [add_assoc]
  simpa using haux files 0

/-- C9: for a positive batch size, the steps-per-epoch value computed by
`train.py` equals the floor of the sum, over all loaded game records
containing a `tcn` field, of half the field's length, divided by the
batch size — games without a `tcn` field are ignored. -/
theorem stepsPerEpoch_matches_heuristic (files : List (List Game))
    (batch_size : Nat) (hb : 0 < batch_size) :
    stepsPerEpoch files batch_size = claimedStepsPerEpoch files batch_size := by
  have hsum : 0 ≤ countMoves files := by
    rw [countMoves_eq]
    apply List.sum_nonneg
    intro q hq
    rw [List.mem_map] at hq
    obtain ⟨s, -, rfl⟩ := hq
    positivity
  have hq : 0 ≤ countMoves files / (batch_size : ℚ) :=
    div_nonneg hsum (by positivity)
  unfold stepsPerEpoch claimedStepsPerEpoch pyInt
  rw [if_pos hq, countMoves_eq]

/-- Concrete loaded game files: two files, three games, one without a
`tcn` field; the `tcn` lengths are 4 and 2, so the move count is 3. -/
def exFiles : List (List Game) :=
  [[{ tcn := some "abcd" }, { tcn := none }], [{ tcn := some "ef" }]]

/-- Witness for C9: on the concrete game files with batch size 2 the
code's value agrees with the claimed formula and evaluates to 1. -/
theorem stepsPerEpoch_matches_heuristic_witness :
    stepsPerEpoch exFiles 2 = claimedStepsPerEpoch exFiles 2
    ∧ stepsPerEpoch exFiles 2 = 1 := by
  refine ⟨stepsPerEpoch_matches_heuristic exFiles 2 (by decide), ?_⟩
  have h4 : "abcd".length = 4 := rfl
  have h2 : "ef".length = 2 := rfl
  have h : countMoves exFiles = 3 := by
    simp [countMoves, exFiles, h4, h2]
    norm_num
  rw [stepsPerEpoch, pyInt, h]
  norm_num [Int.floor_eq_iff]

/-- Counterexample to C10 as stated: with a negative starting learning
rate `starting_lr = -4`, `reduce_lr_every_n_epochs = 1`,
`reduce_lr_factor = 2 ≥ 1` and `min_learning_rate = -100`, the returned
rate strictly increases from epoch 0 to epoch 1, so the rate is not
non-increasing for every parameter choice with factor ≥ 1. -/
theorem scheduler_monotone_counterexample :
    (1 : ℤ) ≤ 2 ∧ scheduler (-4) 1 2 (-100) 0 < scheduler (-4) 1 2 (-100) 1 := by
  constructor
  · decide
  · norm_num [scheduler]

/-- C10 (amended): for a positive reduction period, the schedule at
epoch `e` returns `max min_learning_rate (starting_lr /
reduce_lr_factor ^ (e / reduce_lr_every_n_epochs))` and is always ≥
`min_learning_rate`; and whenever the factor is ≥ 1 and the starting
learning rate is nonnegative, it is non-increasing in the epoch
number. -/
theorem scheduler_schedule_properties (starting_lr : ℚ) (nEpochs : Nat)
    (factor : ℤ) (min_lr : ℚ) (e : Nat) (_hn : 0 < nEpochs) :
    scheduler starting_lr nEpochs factor min_lr e
      = max min_lr (starting_lr / ((factor ^ (e / nEpochs) : ℤ) : ℚ))
    ∧ min_lr ≤ scheduler starting_lr nEpochs factor min_lr e
    ∧ (1 ≤ factor → 0 ≤ starting_lr → ∀ e2, e ≤ e2 →
        scheduler starting_lr nEpochs factor min_lr e2
          ≤ scheduler starting_lr nEpochs factor min_lr e) := by
  refine ⟨rfl, le_max_left _ _, ?_⟩
  intro hf hs e2 he
  unfold scheduler
  apply max_le_max le_rfl
  have hfq : (1 : ℚ) ≤ (factor : ℚ) := by exact_mod_cast hf
  have hk : e / nEpochs ≤ e2 / nEpochs := Nat.div_le_div_right he
  push_cast
  have hpow : (factor : ℚ) ^ (e / nEpochs) ≤ (factor : ℚ) ^ (e2 / nEpochs) :=
    pow_le_pow_right₀ hfq hk
  have hpos : (0 : ℚ) < (factor : ℚ) ^ (e / nEpochs) :=
    pow_pos (lt_of_lt_of_le one_pos hfq) _
  gcongr

/-- Witness for the amended C10: at starting rate 6, period 2, factor 3,
minimum 1/1000 and epoch 5, the schedule is at least the minimum, does
not increase from epoch 5 to epoch 10, and evaluates to 2/3. -/
theorem scheduler_schedule_properties_witness :
    (1 / 1000 : ℚ) ≤ scheduler 6 2 3 (1 / 1000) 5
    ∧ scheduler 6 2 3 (1 / 1000) 10 ≤ scheduler 6 2 3 (1 / 1000) 5
    ∧ scheduler 6 2 3 (1 / 1000) 5 = 2 / 3 := by
  refine ⟨(scheduler_schedule_properties 6 2 3 (1 / 1000) 5 (by decide)).2.1,
    (scheduler_schedule_properties 6 2 3 (1 / 1000) 5 (by decide)).2.2
      (by decide) (by norm_num) 10 (by decide), ?_⟩
  norm_num [scheduler]
